import Mathlib

/-!
Verification of the Trade-Simulator orderbook analytics engine.

The definitions below are a shallow embedding of
`src/Frontend/src/lib/metrics-calculator.ts` and
`src/Frontend/src/lib/websocket.ts`.

Conventions of the embedding:
* JavaScript numbers are modelled as real numbers (`ℝ`).  The decimal
  strings of the transport are already parsed (`parseFloat`) into `ℝ`
  values in the snapshot, so a price level is an `ℝ × ℝ` pair.
* A JavaScript arithmetic step that can produce a non-finite value
  (`NaN` or `±Infinity`) is modelled with `Option ℝ`: `none` stands for
  a non-finite result.  Division returns `none` exactly when the
  denominator is zero (JS gives `NaN` or `±Infinity` there), and
  `Math.sqrt` returns `none` on negative input (JS gives `NaN`).
* A thrown JavaScript exception is modelled with `Except`.  Indexing
  `asks[0][0]` on an empty side throws a `TypeError` in the source;
  the error value `EmptyBookError` names that failure after the role it
  plays in the design (the empty-book fail-fast condition).
* `Math.random()` is modelled by an explicit extra argument `rand`
  (the value drawn), making the data flow of the random draw visible.
-/

noncomputable section

/-- Embeds `OrderbookData` (src/Frontend/src/types/trading.ts).
`asks` and `bids` are `[price, size]` levels, already parsed to numbers. -/
structure OrderbookData where
  timestamp : String
  exchange : String
  symbol : String
  asks : List (ℝ × ℝ)
  bids : List (ℝ × ℝ)

/-- Embeds `MetricsParams` (src/Frontend/src/types/trading.ts). -/
structure MetricsParams where
  orderbook : OrderbookData
  quantity : ℝ
  orderType : String
  volatility : ℝ
  feeTier : String
  exchange : String

/-- Embeds `SimulationResults` (src/Frontend/src/types/trading.ts).
Fields produced by unguarded divisions can be non-finite in JS, hence
`Option ℝ` (with `none` = non-finite) for `slippage`, `marketImpact`
and `netCost`; the remaining fields are always finite. -/
structure SimulationResults where
  slippage : Option ℝ
  fees : ℝ
  marketImpact : Option ℝ
  netCost : Option ℝ
  makerProportion : ℝ
  takerProportion : ℝ
  internalLatency : ℝ

/-- The failure signalled when a side of the book is empty: in the
source, `parseFloat(orderbook.asks[0][0])` / `bids[0][0]` throws a
`TypeError` on an empty array; the spec names this condition
`EmptyBookError`. -/
inductive EmptyBookError where
  | emptyAsks : EmptyBookError
  | emptyBids : EmptyBookError
deriving DecidableEq, Repr

/-- JavaScript division, tracking finiteness: `x / 0` is `NaN` or
`±Infinity` in JS, modelled as `none`. -/
def jsDiv (a b : ℝ) : Option ℝ :=
  if b = 0 then none else some (a / b)

/-- JavaScript `Math.sqrt`, tracking finiteness: `Math.sqrt` of a
negative number is `NaN` in JS, modelled as `none`. -/
def jsSqrt (x : ℝ) : Option ℝ :=
  if x < 0 then none else some (Real.sqrt x)

/-- `levels.reduce((sum, level) => sum + parseFloat(level[1]), 0)` —
the summed size over a list of price levels. -/
def sumSizes (levels : List (ℝ × ℝ)) : ℝ :=
  levels.foldl (fun sum level => sum + level.2) 0

/-- `levels.reduce((sum, l) => sum + parseFloat(l[0]) * parseFloat(l[1]), 0)`
— the summed price·size notional over a list of price levels. -/
def sumNotional (levels : List (ℝ × ℝ)) : ℝ :=
  levels.foldl (fun sum level => sum + level.1 * level.2) 0

/-- Embeds `calculateSlippage` (metrics-calculator.ts lines 47–64).
The imbalance division has no zero guard in the source, so the result
is `none` (non-finite in JS) when the top-5 volumes sum to zero; the
`Math.sqrt(quantity)` term is `none` for negative quantity. -/
def calculateSlippage (orderbook : OrderbookData) (quantity : ℝ) : Option ℝ :=
  let topAsks := orderbook.asks.take 5
  let topBids := orderbook.bids.take 5
  let askVolume := sumSizes topAsks
  let bidVolume := sumSizes topBids
  do
    let imbalance ← jsDiv (bidVolume - askVolume) (bidVolume + askVolume)
    let sqrtQ ← jsSqrt quantity
    let baseSlippage : ℝ := 0.05
    let sizeImpact := 0.001 * sqrtQ
    let imbalanceEffect := -0.1 * imbalance
    pure (baseSlippage + sizeImpact + imbalanceEffect)

/-- The fee-rate table of `calculateFees` (`feeRates`): a record lookup
returning `none` for a key not in the table. -/
def feeRates (feeTier : String) : Option ℝ :=
  if feeTier = "tier1" then some 0.001
  else if feeTier = "tier2" then some 0.0008
  else if feeTier = "tier3" then some 0.0005
  else none

/-- Embeds `calculateFees` (metrics-calculator.ts lines 69–79).
`feeRates[feeTier] || feeRates.tier1` falls back to the tier1 rate when
the lookup is `undefined` (all table rates are non-zero, so JS
truthiness coincides with presence in the table). -/
def calculateFees (quantity : ℝ) (feeTier : String) : ℝ :=
  let feeRate := match feeRates feeTier with
    | some r => r
    | none => 0.001
  quantity * feeRate

/-- Embeds `calculateEnhancedMarketImpact` (metrics-calculator.ts lines
85–128).  Indexing the best levels throws on an empty side (`Except`);
the final division by `midPrice` has no zero guard, so the payload is
`none` (non-finite in JS) when `midPrice = 0`. -/
def calculateEnhancedMarketImpact (orderbook : OrderbookData)
    (quantity volatility : ℝ) : Except EmptyBookError (Option ℝ) :=
  match orderbook.asks.head?, orderbook.bids.head? with
  | none, _ => .error .emptyAsks
  | some _, none => .error .emptyBids
  | some a0, some b0 =>
    let bestAsk := a0.1
    let bestBid := b0.1
    let midPrice := (bestAsk + bestBid) / 2
    let bids := orderbook.bids
    let asks := orderbook.asks
    let bidLiquidity := sumNotional bids
    let askLiquidity := sumNotional asks
    let totalLiquidity := bidLiquidity + askLiquidity
    let bidDepth := sumSizes bids
    let askDepth := sumSizes asks
    let totalDepth := bidDepth + askDepth
    let relativeOrderSize := if totalDepth > 0 then quantity / totalDepth else 0
    let permanentImpactFactor := 0.1 * volatility
    let temporaryImpactFactor : ℝ := 0.05
    let _ := totalLiquidity
    .ok (do
      let sqrtRel ← jsSqrt relativeOrderSize
      let permanentImpact := permanentImpactFactor * relativeOrderSize * midPrice
      let temporaryImpact := temporaryImpactFactor * sqrtRel * midPrice * (1 + volatility)
      let marketImpact := permanentImpact + temporaryImpact
      let ratio ← jsDiv marketImpact midPrice
      pure (ratio * 100))

/-- Embeds `estimateImprovedMakerTakerProportion` (metrics-calculator.ts
lines 134–195).  Indexing the best levels throws on an empty side; every
division in the body is guarded in the source, so the payload is a plain
pair `(makerProportion, takerProportion)`. -/
def estimateImprovedMakerTakerProportion (orderbook : OrderbookData)
    (quantity : ℝ) (orderType : String) (volatility : ℝ) :
    Except EmptyBookError (ℝ × ℝ) :=
  match orderbook.asks.head?, orderbook.bids.head? with
  | none, _ => .error .emptyAsks
  | some _, none => .error .emptyBids
  | some a0, some b0 =>
    let bids := orderbook.bids
    let asks := orderbook.asks
    let bestAsk := a0.1
    let bestBid := b0.1
    let spread := bestAsk - bestBid
    let midPrice := (bestAsk + bestBid) / 2
    let bidDepth := sumSizes bids
    let askDepth := sumSizes asks
    let relSpread := if midPrice > 0 then spread / midPrice else 0
    let relOrderSize := if askDepth * midPrice > 0 then quantity / (askDepth * midPrice) else 1
    let baseRate : ℝ := if orderType = "market" then 0.95 else 0.5
    let sizeImpact := min 0.25 (relOrderSize * 0.5)
    let volatilityImpact := min 0.15 (volatility * 0.3)
    let spreadImpact := max (-0.2) (-relSpread * 20)
    let depthImbalance :=
      (bidDepth - askDepth) / (if bidDepth + askDepth = 0 then 1 else bidDepth + askDepth)
    let balanceImpact := min (max (-0.1) (depthImbalance * 0.1)) 0.1
    let takerRatio :=
      min 1.0 (max 0 (baseRate + sizeImpact + volatilityImpact + spreadImpact + balanceImpact))
    let takerRatio2 := if volatility > 0.8 then min 1.0 (takerRatio + 0.15) else takerRatio
    let takerProportion := takerRatio2 * 100
    let makerProportion := 100 - takerProportion
    .ok (makerProportion, takerProportion)

/-- Embeds `calculateMetrics` (metrics-calculator.ts lines 7–42).
`rand` is the value drawn by `Math.random()` on line 31.  Lines 11–12
index the best ask/bid of each side, throwing on an empty side before
any sub-calculation runs. -/
def calculateMetrics (params : MetricsParams) (rand : ℝ) :
    Except EmptyBookError SimulationResults :=
  match params.orderbook.asks.head?, params.orderbook.bids.head? with
  | none, _ => .error .emptyAsks
  | some _, none => .error .emptyBids
  | some a0, some b0 =>
    let bestAsk := a0.1
    let bestBid := b0.1
    let midPrice := (bestAsk + bestBid) / 2
    let _ := midPrice
    let slippage := calculateSlippage params.orderbook params.quantity
    let fees := calculateFees params.quantity params.feeTier
    do
      let marketImpact ←
        calculateEnhancedMarketImpact params.orderbook params.quantity params.volatility
      let netCost := do
        let s ← slippage
        let m ← marketImpact
        pure (params.quantity * s / 100 + fees + params.quantity * m / 100)
      let mt ←
        estimateImprovedMakerTakerProportion params.orderbook params.quantity
          params.orderType params.volatility
      let internalLatency := rand * 30 + 10
      pure {
        slippage := slippage
        fees := fees
        marketImpact := marketImpact
        netCost := netCost
        makerProportion := mt.1
        takerProportion := mt.2
        internalLatency := internalLatency }

/-- The six deterministic fields of a result bundle — everything except
the externally-driven `internalLatency`. -/
def deterministicFields (r : SimulationResults) :
    Option ℝ × ℝ × Option ℝ × Option ℝ × ℝ × ℝ :=
  (r.slippage, r.fees, r.marketImpact, r.netCost, r.makerProportion, r.takerProportion)

/-- Rescales every price on both sides of the book by `c`, keeping all
sizes fixed. -/
def scalePrices (c : ℝ) (ob : OrderbookData) : OrderbookData :=
  { ob with
    asks := ob.asks.map (fun l => (c * l.1, l.2))
    bids := ob.bids.map (fun l => (c * l.1, l.2)) }

/-- A small valid snapshot (strictly ascending asks, strictly descending
bids, positive sizes, not crossed) used as a concrete test input. -/
def sampleBook : OrderbookData :=
  { timestamp := "2025-05-04T10:39:13Z"
    exchange := "OKX"
    symbol := "BTC-USDT-SWAP"
    asks := [(3, 1), (4, 2)]
    bids := [(2, 1), (1, 5)] }

/-- Order parameters paired with `sampleBook` for concrete evaluation. -/
def sampleParams : MetricsParams :=
  { orderbook := sampleBook
    quantity := 100
    orderType := "market"
    volatility := 1/2
    feeTier := "tier1"
    exchange := "OKX" }

/-- A snapshot whose ask side is empty (the feed reported an empty
side), used to exercise the empty-book failure path. -/
def emptyAsksParams : MetricsParams :=
  { orderbook :=
      { timestamp := "t", exchange := "OKX", symbol := "BTC-USDT-SWAP"
        asks := [], bids := [(2, 1)] }
    quantity := 100
    orderType := "market"
    volatility := 1/2
    feeTier := "tier1"
    exchange := "OKX" }

end

/-- Claim C1: for every snapshot whose asks sequence or bids sequence is
empty and every order parameters value, `calculateMetrics` fails fast
with the empty-book error and produces no result bundle — it neither
returns a partial bundle nor substitutes zeros. -/
theorem c1_empty_book_fails (p : MetricsParams) (rand : ℝ)
    (h : p.orderbook.asks = [] ∨ p.orderbook.bids = []) :
    (calculateMetrics p rand).toOption = none := by
  rcases h with h | h
  · unfold calculateMetrics
    rw [h]
    rfl
  · unfold calculateMetrics
    rw [h]
    cases hA : p.orderbook.asks.head? <;> rfl

/-- Witness for C1 at a concrete snapshot with an empty ask side. -/
theorem c1_empty_book_fails_witness :
    (emptyAsksParams.orderbook.asks = [] ∨ emptyAsksParams.orderbook.bids = []) ∧
    (calculateMetrics emptyAsksParams 0).toOption = none :=
  ⟨Or.inl rfl, c1_empty_book_fails emptyAsksParams 0 (Or.inl rfl)⟩

/-- Claim C2 (code bug): the claim says `internal_latency_ms` is a
pass-through of the adapter-measured decode latency, but
`calculateMetrics` takes no latency input at all and generates the field
from the `Math.random()` draw as `rand * 30 + 10`: on identical
`(snapshot, params)` the field differs across draws (10 for draw 0,
25 for draw 1/2). -/
theorem c2_latency_generated_from_random_draw :
    (calculateMetrics sampleParams 0).map SimulationResults.internalLatency = .ok 10 ∧
    (calculateMetrics sampleParams (1/2)).map SimulationResults.internalLatency = .ok 25 ∧
    (10 : ℝ) ≠ 25 := by
  have h0 : (calculateMetrics sampleParams 0).map SimulationResults.internalLatency
      = .ok (0 * 30 + 10) := rfl
  have h1 : (calculateMetrics sampleParams (1/2)).map SimulationResults.internalLatency
      = .ok (1/2 * 30 + 10) := rfl
  refine ⟨?_, ?_, by norm_num⟩
  · rw [h0]; norm_num
  · rw [h1]; norm_num

/-- Claim C3: `calculateMetrics` is deterministic on all fields except
the externally-driven latency field: for identical `(snapshot, params)`
pairs, the slippage, fees, marketImpact, netCost, makerProportion and
takerProportion agree whatever the random draw. -/
theorem c3_deterministic_fields (p : MetricsParams) (r1 r2 : ℝ) :
    (calculateMetrics p r1).map deterministicFields =
    (calculateMetrics p r2).map deterministicFields := by
  unfold calculateMetrics
  cases hA : p.orderbook.asks.head? with
  | none => rfl
  | some a0 =>
    cases hB : p.orderbook.bids.head? with
    | none => rfl
    | some b0 =>
      cases hI : calculateEnhancedMarketImpact p.orderbook p.quantity p.volatility with
      | error e => rfl
      | ok mi =>
        cases hM : estimateImprovedMakerTakerProportion p.orderbook p.quantity
            p.orderType p.volatility with
        | error e => rfl
        | ok mt => rfl

/-- Claim C8: fees equal quantity times the tier rate from the table
`{tier1 ↦ 0.0010, tier2 ↦ 0.0008, tier3 ↦ 0.0005}`, an unknown tier
falls back to the tier1 rate, and in particular
`calculateFees 1000 tier1 = 1` and `calculateFees 1000 tier3 = 0.5`. -/
theorem c8_fee_table :
    (∀ q : ℝ, calculateFees q "tier1" = q * 0.001) ∧
    (∀ q : ℝ, calculateFees q "tier2" = q * 0.0008) ∧
    (∀ q : ℝ, calculateFees q "tier3" = q * 0.0005) ∧
    (∀ (q : ℝ) (t : String), t ≠ "tier1" → t ≠ "tier2" → t ≠ "tier3" →
      calculateFees q t = q * 0.001) ∧
    calculateFees 1000 "tier1" = 1 ∧
    calculateFees 1000 "tier3" = 0.5 := by
  refine ⟨fun q => rfl, fun q => rfl, fun q => rfl, fun q t h1 h2 h3 => ?_,
    by simp only [calculateFees, feeRates]; norm_num,
    by
      simp only [calculateFees, feeRates]
      rw [if_neg (by decide : ¬ ("tier3" = "tier1")),
        if_neg (by decide : ¬ ("tier3" = "tier2"))]
      norm_num⟩
  simp [calculateFees, feeRates, h1, h2, h3]

/-- Witness for C8 at a concrete unknown fee tier. -/
theorem c8_fee_table_witness : calculateFees 7 "vip" = 7 * 0.001 :=
  c8_fee_table.2.2.2.1 7 "vip" (by decide) (by decide) (by decide)

/-- Shared helper: on a snapshot with both best levels present,
`calculateMetrics` returns a bundle whose fields are the sub-calculation
results, with `internalLatency = rand * 30 + 10`. -/
theorem calculateMetrics_ok (p : MetricsParams) (rand : ℝ) (a0 b0 : ℝ × ℝ)
    (hA : p.orderbook.asks.head? = some a0) (hB : p.orderbook.bids.head? = some b0) :
    ∃ (mi : Option ℝ) (mt : ℝ × ℝ),
      calculateEnhancedMarketImpact p.orderbook p.quantity p.volatility = .ok mi ∧
      estimateImprovedMakerTakerProportion p.orderbook p.quantity p.orderType
        p.volatility = .ok mt ∧
      calculateMetrics p rand = .ok {
        slippage := calculateSlippage p.orderbook p.quantity
        fees := calculateFees p.quantity p.feeTier
        marketImpact := mi
        netCost := do
          let s ← calculateSlippage p.orderbook p.quantity
          let m ← mi
          pure (p.quantity * s / 100 + calculateFees p.quantity p.feeTier +
            p.quantity * m / 100)
        makerProportion := mt.1
        takerProportion := mt.2
        internalLatency := rand * 30 + 10 } := by
  unfold calculateMetrics calculateEnhancedMarketImpact estimateImprovedMakerTakerProportion
  rw [hA, hB]
  exact ⟨_, _, rfl, rfl, rfl⟩

/-- Shared helper: the clamp-and-boost step of the maker/taker model
yields percentages that split 100 exactly and lie in `[0, 100]`. -/
theorem makerTaker_split_core (X vol : ℝ) :
    (100 - (if vol > 0.8 then min 1.0 (min 1.0 (max 0 X) + 0.15) else min 1.0 (max 0 X)) * 100) +
      (if vol > 0.8 then min 1.0 (min 1.0 (max 0 X) + 0.15) else min 1.0 (max 0 X)) * 100 = 100 ∧
    0 ≤ (if vol > 0.8 then min 1.0 (min 1.0 (max 0 X) + 0.15) else min 1.0 (max 0 X)) * 100 ∧
    (if vol > 0.8 then min 1.0 (min 1.0 (max 0 X) + 0.15) else min 1.0 (max 0 X)) * 100 ≤ 100 ∧
    0 ≤ 100 - (if vol > 0.8 then min 1.0 (min 1.0 (max 0 X) + 0.15) else min 1.0 (max 0 X)) * 100 ∧
    100 - (if vol > 0.8 then min 1.0 (min 1.0 (max 0 X) + 0.15) else min 1.0 (max 0 X)) * 100 ≤ 100 := by
  set t := min 1.0 (max 0 X) with ht
  set t2 := if vol > 0.8 then min 1.0 (t + 0.15) else t with ht2
  have h0 : 0 ≤ t := le_min (by norm_num) (le_max_left 0 X)
  have h1 : t ≤ 1 := le_trans (min_le_left _ _) (by norm_num)
  have h20 : 0 ≤ t2 := by
    rw [ht2]; split
    · exact le_min (by norm_num) (by linarith)
    · exact h0
  have h21 : t2 ≤ 1 := by
    rw [ht2]; split
    · exact le_trans (min_le_left _ _) (by norm_num)
    · exact h1
  refine ⟨by ring, by linarith, by linarith, by linarith, by linarith⟩

/-- Claim C5: for every snapshot with both sides non-empty and every
order parameters and draw, the maker/taker split of the bundle satisfies
`makerProportion + takerProportion = 100` exactly and both proportions
lie in `[0, 100]` — including when `volatility > 0.8` triggers the extra
`0.15` addition and re-clamp. -/
theorem c5_maker_taker_split (p : MetricsParams) (rand : ℝ)
    (hA0 : p.orderbook.asks ≠ []) (hB0 : p.orderbook.bids ≠ []) :
    ∃ res, calculateMetrics p rand = .ok res ∧
      res.makerProportion + res.takerProportion = 100 ∧
      0 ≤ res.takerProportion ∧ res.takerProportion ≤ 100 ∧
      0 ≤ res.makerProportion ∧ res.makerProportion ≤ 100 := by
  obtain ⟨a0, hA⟩ : ∃ a0, p.orderbook.asks.head? = some a0 := by
    cases h : p.orderbook.asks.head? with
    | none => exact absurd (List.head?_eq_none_iff.mp h) hA0
    | some x => exact ⟨x, rfl⟩
  obtain ⟨b0, hB⟩ : ∃ b0, p.orderbook.bids.head? = some b0 := by
    cases h : p.orderbook.bids.head? with
    | none => exact absurd (List.head?_eq_none_iff.mp h) hB0
    | some x => exact ⟨x, rfl⟩
  obtain ⟨mi, mt, hI, hM, hEq⟩ := calculateMetrics_ok p rand a0 b0 hA hB
  unfold estimateImprovedMakerTakerProportion at hM
  rw [hA, hB] at hM
  injection hM with hmt
  refine ⟨_, hEq, ?_⟩
  dsimp only
  rw [← hmt]
  exact makerTaker_split_core _ _

/-- Witness for C5 on the concrete sample snapshot. -/
theorem c5_maker_taker_split_witness :
    sampleParams.orderbook.asks ≠ [] ∧ sampleParams.orderbook.bids ≠ [] ∧
    ∃ res, calculateMetrics sampleParams 0 = .ok res ∧
      res.makerProportion + res.takerProportion = 100 ∧
      0 ≤ res.takerProportion ∧ res.takerProportion ≤ 100 ∧
      0 ≤ res.makerProportion ∧ res.makerProportion ≤ 100 :=
  ⟨by simp [sampleParams, sampleBook], by simp [sampleParams, sampleBook],
    c5_maker_taker_split sampleParams 0 (by simp [sampleParams, sampleBook])
      (by simp [sampleParams, sampleBook])⟩

/-- Shared helper: with non-negative quantity and a non-zero top-5
volume sum, `calculateSlippage` returns the closed-form value, in the
grouping the source computes it. -/
theorem calculateSlippage_eq (ob : OrderbookData) (q : ℝ) (hq : 0 ≤ q)
    (hvol : sumSizes (ob.bids.take 5) + sumSizes (ob.asks.take 5) ≠ 0) :
    calculateSlippage ob q = some (0.05 + 0.001 * Real.sqrt q +
      -0.1 * ((sumSizes (ob.bids.take 5) - sumSizes (ob.asks.take 5)) /
        (sumSizes (ob.bids.take 5) + sumSizes (ob.asks.take 5)))) := by
  unfold calculateSlippage
  simp only [jsDiv, jsSqrt, if_neg hvol, if_neg (not_lt.mpr hq)]
  rfl

/-- Shared helper: when the top-5 volume sum is zero the unguarded
imbalance division is non-finite in JS, so `calculateSlippage` yields no
finite value. -/
theorem calculateSlippage_zero_volume (ob : OrderbookData) (q : ℝ)
    (hvol : sumSizes (ob.bids.take 5) + sumSizes (ob.asks.take 5) = 0) :
    calculateSlippage ob q = none := by
  unfold calculateSlippage
  simp only [jsDiv, if_pos hvol]
  rfl

/-- Claim C6: for every snapshot with a non-zero top-5 volume sum and
every non-negative quantity, the slippage equals
`0.05 + 0.001·sqrt(quantity) − 0.1·imbalance` with
`imbalance = (bidVol − askVol)/(bidVol + askVol)` over the top-5 levels;
consequently the slippage is monotonically non-decreasing in the
quantity for a fixed snapshot. -/
theorem c6_slippage_formula_and_monotone (ob : OrderbookData) :
    (∀ q : ℝ, 0 ≤ q →
      sumSizes (ob.bids.take 5) + sumSizes (ob.asks.take 5) ≠ 0 →
      calculateSlippage ob q = some (0.05 + 0.001 * Real.sqrt q -
        0.1 * ((sumSizes (ob.bids.take 5) - sumSizes (ob.asks.take 5)) /
          (sumSizes (ob.bids.take 5) + sumSizes (ob.asks.take 5))))) ∧
    (∀ q1 q2 s1 s2 : ℝ, 0 ≤ q1 → q1 ≤ q2 →
      calculateSlippage ob q1 = some s1 → calculateSlippage ob q2 = some s2 →
      s1 ≤ s2) := by
  constructor
  · intro q hq hvol
    rw [calculateSlippage_eq ob q hq hvol]
    congr 1
    ring
  · intro q1 q2 s1 s2 hq1 h12 he1 he2
    by_cases hvol : sumSizes (ob.bids.take 5) + sumSizes (ob.asks.take 5) = 0
    · rw [calculateSlippage_zero_volume ob q1 hvol] at he1
      exact absurd he1 (by simp)
    · rw [calculateSlippage_eq ob q1 hq1 hvol] at he1
      rw [calculateSlippage_eq ob q2 (le_trans hq1 h12) hvol] at he2
      injection he1 with he1
      injection he2 with he2
      have hsq : Real.sqrt q1 ≤ Real.sqrt q2 := Real.sqrt_le_sqrt h12
      rw [← he1, ← he2]
      linarith

/-- Witness for C6 on the concrete sample snapshot at quantities 4 and 9. -/
theorem c6_slippage_witness :
    0 ≤ (4 : ℝ) ∧
    sumSizes (sampleBook.bids.take 5) + sumSizes (sampleBook.asks.take 5) ≠ 0 ∧
    calculateSlippage sampleBook 4 = some (0.05 + 0.001 * Real.sqrt 4 -
      0.1 * ((sumSizes (sampleBook.bids.take 5) - sumSizes (sampleBook.asks.take 5)) /
        (sumSizes (sampleBook.bids.take 5) + sumSizes (sampleBook.asks.take 5)))) ∧
    (0.05 + 0.001 * Real.sqrt 4 -
      0.1 * ((sumSizes (sampleBook.bids.take 5) - sumSizes (sampleBook.asks.take 5)) /
        (sumSizes (sampleBook.bids.take 5) + sumSizes (sampleBook.asks.take 5)))) ≤
    (0.05 + 0.001 * Real.sqrt 9 -
      0.1 * ((sumSizes (sampleBook.bids.take 5) - sumSizes (sampleBook.asks.take 5)) /
        (sumSizes (sampleBook.bids.take 5) + sumSizes (sampleBook.asks.take 5)))) := by
  have hvol : sumSizes (sampleBook.bids.take 5) + sumSizes (sampleBook.asks.take 5) ≠ 0 := by
    norm_num [sampleBook, sumSizes]
  have h4 := (c6_slippage_formula_and_monotone sampleBook).1 4 (by norm_num) hvol
  have h9 := (c6_slippage_formula_and_monotone sampleBook).1 9 (by norm_num) hvol
  exact ⟨by norm_num, hvol, h4,
    (c6_slippage_formula_and_monotone sampleBook).2 4 9 _ _ (by norm_num)
      (by norm_num) h4 h9⟩

/-- Shared helper: `jsDiv` is invariant under scaling numerator and
denominator by the same non-zero constant. -/
theorem jsDiv_mul_left (c x y : ℝ) (hc : c ≠ 0) :
    jsDiv (c * x) (c * y) = jsDiv x y := by
  unfold jsDiv
  by_cases hy : y = 0
  · simp [hy]
  · rw [if_neg (mul_ne_zero hc hy), if_neg hy, mul_div_mul_left x y hc]

/-- Shared helper: summed sizes are unchanged when every price is
rescaled and sizes are kept. -/
theorem sumSizes_map_scale (c : ℝ) (l : List (ℝ × ℝ)) :
    sumSizes (l.map (fun lv => (c * lv.1, lv.2))) = sumSizes l := by
  unfold sumSizes
  rw [List.foldl_map]

/-- Shared helper: the market-impact payload is unchanged when the mid
price is rescaled by a non-zero constant, because both impact terms are
linear in the mid price and the final step divides by it. -/
theorem impact_payload_scale (c M R vol : ℝ) (hc : c ≠ 0) :
    (do
      let sqrtRel ← jsSqrt R
      let ratio ← jsDiv (0.1 * vol * R * (c * M) + 0.05 * sqrtRel * (c * M) * (1 + vol))
        (c * M)
      pure (ratio * 100) : Option ℝ) =
    (do
      let sqrtRel ← jsSqrt R
      let ratio ← jsDiv (0.1 * vol * R * M + 0.05 * sqrtRel * M * (1 + vol)) M
      pure (ratio * 100) : Option ℝ) := by
  cases jsSqrt R with
  | none => rfl
  | some s =>
    show (do
      let ratio ← jsDiv (0.1 * vol * R * (c * M) + 0.05 * s * (c * M) * (1 + vol)) (c * M)
      pure (ratio * 100) : Option ℝ) = _
    have h : 0.1 * vol * R * (c * M) + 0.05 * s * (c * M) * (1 + vol) =
        c * (0.1 * vol * R * M + 0.05 * s * M * (1 + vol)) := by ring
    rw [h, jsDiv_mul_left _ _ _ hc]
    rfl

/-- Shared helper: with both best levels present, non-negative quantity
and a non-zero mid price, `calculateEnhancedMarketImpact` returns the
closed-form value, in the grouping the source computes it. -/
theorem calculateEnhancedMarketImpact_eq (ob : OrderbookData) (q vol : ℝ)
    (a0 b0 : ℝ × ℝ)
    (hA : ob.asks.head? = some a0) (hB : ob.bids.head? = some b0)
    (hq : 0 ≤ q) (hmid : (a0.1 + b0.1) / 2 ≠ 0) :
    calculateEnhancedMarketImpact ob q vol = .ok (some
      ((0.1 * vol * (if sumSizes ob.bids + sumSizes ob.asks > 0
            then q / (sumSizes ob.bids + sumSizes ob.asks) else 0) * ((a0.1 + b0.1) / 2) +
          0.05 * Real.sqrt (if sumSizes ob.bids + sumSizes ob.asks > 0
            then q / (sumSizes ob.bids + sumSizes ob.asks) else 0) *
            ((a0.1 + b0.1) / 2) * (1 + vol)) /
        ((a0.1 + b0.1) / 2) * 100)) := by
  have hrel : ¬ ((if sumSizes ob.bids + sumSizes ob.asks > 0
      then q / (sumSizes ob.bids + sumSizes ob.asks) else 0) < 0) := by
    push_neg
    split
    · rename_i h
      exact div_nonneg hq h.le
    · exact le_refl 0
  unfold calculateEnhancedMarketImpact
  rw [hA, hB]
  dsimp only
  simp only [jsSqrt, jsDiv, if_neg hrel, if_neg hmid]
  rfl

/-- Claim C7: for every snapshot with both best levels present, a
non-zero mid price and non-negative quantity, the market impact equals
`100·(permanent + temporary)/mid` with
`permanent = 0.1·volatility·relSize·mid`,
`temporary = 0.05·sqrt(relSize)·mid·(1 + volatility)` and
`relSize = quantity/totalDepth` over the full book (`relSize = 0` when
`totalDepth = 0`); in the degenerate `totalDepth = 0` case the result is
the finite value obtained with `relSize = 0`, never non-finite. -/
theorem c7_market_impact_formula (ob : OrderbookData) (q vol : ℝ) (a0 b0 : ℝ × ℝ)
    (hA : ob.asks.head? = some a0) (hB : ob.bids.head? = some b0)
    (hq : 0 ≤ q) (hmid : (a0.1 + b0.1) / 2 ≠ 0) :
    calculateEnhancedMarketImpact ob q vol = .ok (some
      (100 * (0.1 * vol * (if sumSizes ob.bids + sumSizes ob.asks > 0
            then q / (sumSizes ob.bids + sumSizes ob.asks) else 0) * ((a0.1 + b0.1) / 2) +
          0.05 * Real.sqrt (if sumSizes ob.bids + sumSizes ob.asks > 0
            then q / (sumSizes ob.bids + sumSizes ob.asks) else 0) *
            ((a0.1 + b0.1) / 2) * (1 + vol)) /
        ((a0.1 + b0.1) / 2))) ∧
    (sumSizes ob.bids + sumSizes ob.asks = 0 →
      calculateEnhancedMarketImpact ob q vol = .ok (some 0)) := by
  constructor
  · rw [calculateEnhancedMarketImpact_eq ob q vol a0 b0 hA hB hq hmid]
    congr 2
    ring
  · intro hd
    rw [calculateEnhancedMarketImpact_eq ob q vol a0 b0 hA hB hq hmid, hd]
    norm_num [Real.sqrt_zero]

/-- Witness for C7 on the concrete sample snapshot. -/
theorem c7_market_impact_formula_witness :
    sampleBook.asks.head? = some ((3 : ℝ), (1 : ℝ)) ∧
    sampleBook.bids.head? = some ((2 : ℝ), (1 : ℝ)) ∧
    0 ≤ (4 : ℝ) ∧
    ((((3 : ℝ), (1 : ℝ)).1 + (((2 : ℝ), (1 : ℝ))).1) / 2) ≠ 0 ∧
    calculateEnhancedMarketImpact sampleBook 4 (1/2) = .ok (some
      (100 * (0.1 * (1/2) * (if sumSizes sampleBook.bids + sumSizes sampleBook.asks > 0
            then 4 / (sumSizes sampleBook.bids + sumSizes sampleBook.asks) else 0) *
            ((((3 : ℝ), (1 : ℝ)).1 + (((2 : ℝ), (1 : ℝ))).1) / 2) +
          0.05 * Real.sqrt (if sumSizes sampleBook.bids + sumSizes sampleBook.asks > 0
            then 4 / (sumSizes sampleBook.bids + sumSizes sampleBook.asks) else 0) *
            ((((3 : ℝ), (1 : ℝ)).1 + (((2 : ℝ), (1 : ℝ))).1) / 2) * (1 + 1/2)) /
        ((((3 : ℝ), (1 : ℝ)).1 + (((2 : ℝ), (1 : ℝ))).1) / 2))) :=
  ⟨rfl, rfl, by norm_num, by norm_num,
    (c7_market_impact_formula sampleBook 4 (1/2) (3, 1) (2, 1) rfl rfl
      (by norm_num) (by norm_num)).1⟩

/-- Claim C10: the market impact percentage is scale-invariant in price:
multiplying every price on both sides by the same positive constant,
keeping all sizes fixed, leaves the market impact unchanged. -/
theorem c10_impact_price_scale_invariant (ob : OrderbookData) (q vol c : ℝ)
    (hc : 0 < c) :
    calculateEnhancedMarketImpact (scalePrices c ob) q vol =
      calculateEnhancedMarketImpact ob q vol := by
  unfold calculateEnhancedMarketImpact scalePrices
  dsimp only
  rw [List.head?_map, List.head?_map]
  cases hA : ob.asks.head? with
  | none => rfl
  | some a0 =>
    cases hB : ob.bids.head? with
    | none => rfl
    | some b0 =>
      dsimp only [Option.map_some']
      rw [sumSizes_map_scale c ob.bids, sumSizes_map_scale c ob.asks]
      have hm : (c * a0.1 + c * b0.1) / 2 = c * ((a0.1 + b0.1) / 2) := by ring
      rw [hm]
      exact congrArg Except.ok (impact_payload_scale c _ _ vol (ne_of_gt hc))

/-- Witness for C10: doubling every price of the sample snapshot leaves
the market impact unchanged. -/
theorem c10_impact_price_scale_invariant_witness :
    0 < (2 : ℝ) ∧
    calculateEnhancedMarketImpact (scalePrices 2 sampleBook) 4 (1/2) =
      calculateEnhancedMarketImpact sampleBook 4 (1/2) :=
  ⟨by norm_num, c10_impact_price_scale_invariant sampleBook 4 (1/2) 2 (by norm_num)⟩

/-- A valid snapshot (non-empty sides, strictly ordered trivially, not
crossed, non-negative sizes) in which every resting size is zero, so the
top-5 volumes sum to zero. -/
noncomputable def zeroSizeParams : MetricsParams :=
  { orderbook :=
      { timestamp := "t", exchange := "OKX", symbol := "BTC-USDT-SWAP"
        asks := [(1, 0)], bids := [(1/2, 0)] }
    quantity := 100
    orderType := "market"
    volatility := 1/2
    feeTier := "tier1"
    exchange := "OKX" }

/-- Counterexample to C4: on a valid snapshot — both sides non-empty,
best bid `1/2` below best ask `1`, sizes non-negative — whose top-5
volumes sum to zero, the slippage imbalance division has no fallback:
the bundle is produced with a non-finite (`none` = JS `NaN`) slippage
and net cost. -/
theorem c4_zero_volume_counterexample :
    zeroSizeParams.orderbook.asks ≠ [] ∧ zeroSizeParams.orderbook.bids ≠ [] ∧
    ((1 : ℝ)/2 ≤ 1) ∧
    (calculateMetrics zeroSizeParams 0).map SimulationResults.slippage = .ok none ∧
    (calculateMetrics zeroSizeParams 0).map SimulationResults.netCost = .ok none := by
  have hs : calculateSlippage zeroSizeParams.orderbook 100 = none := by
    refine calculateSlippage_zero_volume _ _ ?_
    norm_num [zeroSizeParams, sumSizes]
  have h1 : (calculateMetrics zeroSizeParams 0).map SimulationResults.slippage
      = .ok (calculateSlippage zeroSizeParams.orderbook 100) := rfl
  have h2 : (calculateMetrics zeroSizeParams 0).map SimulationResults.netCost
      = .ok (Option.bind (calculateSlippage zeroSizeParams.orderbook 100)
          (fun s => Option.bind
            ((calculateEnhancedMarketImpact zeroSizeParams.orderbook 100 (1/2)).toOption.getD
              none)
            (fun m => some (100 * s / 100 + calculateFees 100 "tier1" + 100 * m / 100)))) :=
    rfl
  refine ⟨by simp [zeroSizeParams], by simp [zeroSizeParams], by norm_num, ?_, ?_⟩
  · rw [h1, hs]
  · rw [h2, hs]
    rfl

/-- Claim C4 amended: the guarded divisions fall back as stated, but the
slippage imbalance division is unguarded, so finiteness of every bundle
field holds only when the top-5 volume sum is non-zero (and the mid
price is non-zero for the equally unguarded final impact division): under
those conditions slippage, market impact and net cost are all finite —
the remaining fields are real-valued by construction. -/
theorem c4_amended_finite_fields (p : MetricsParams) (rand : ℝ) (a0 b0 : ℝ × ℝ)
    (hA : p.orderbook.asks.head? = some a0) (hB : p.orderbook.bids.head? = some b0)
    (hq : 0 ≤ p.quantity)
    (hvol : sumSizes (p.orderbook.bids.take 5) + sumSizes (p.orderbook.asks.take 5) ≠ 0)
    (hmid : (a0.1 + b0.1) / 2 ≠ 0) :
    ∃ res, calculateMetrics p rand = .ok res ∧
      res.slippage.isSome ∧ res.marketImpact.isSome ∧ res.netCost.isSome := by
  obtain ⟨mi, mt, hI, hM, hEq⟩ := calculateMetrics_ok p rand a0 b0 hA hB
  have hs := calculateSlippage_eq p.orderbook p.quantity hq hvol
  have him := calculateEnhancedMarketImpact_eq p.orderbook p.quantity p.volatility
    a0 b0 hA hB hq hmid
  rw [him] at hI
  injection hI with hI2
  refine ⟨_, hEq, ?_, ?_, ?_⟩
  · dsimp only
    rw [hs]
    rfl
  · dsimp only
    rw [← hI2]
    rfl
  · dsimp only
    rw [hs, ← hI2]
    rfl

/-- Witness for the amended C4 on the concrete sample snapshot. -/
theorem c4_amended_finite_fields_witness :
    sampleParams.orderbook.asks.head? = some ((3 : ℝ), (1 : ℝ)) ∧
    sampleParams.orderbook.bids.head? = some ((2 : ℝ), (1 : ℝ)) ∧
    0 ≤ sampleParams.quantity ∧
    sumSizes (sampleParams.orderbook.bids.take 5) +
      sumSizes (sampleParams.orderbook.asks.take 5) ≠ 0 ∧
    ((((3 : ℝ), (1 : ℝ)).1 + (((2 : ℝ), (1 : ℝ))).1) / 2 ≠ 0) ∧
    ∃ res, calculateMetrics sampleParams 0 = .ok res ∧
      res.slippage.isSome ∧ res.marketImpact.isSome ∧ res.netCost.isSome := by
  have hvol : sumSizes (sampleParams.orderbook.bids.take 5) +
      sumSizes (sampleParams.orderbook.asks.take 5) ≠ 0 := by
    norm_num [sampleParams, sampleBook, sumSizes]
  exact ⟨rfl, rfl, by norm_num [sampleParams], hvol, by norm_num,
    c4_amended_finite_fields sampleParams 0 (3, 1) (2, 1) rfl rfl
      (by norm_num [sampleParams]) hvol (by norm_num)⟩

/-- The observable effect of one inbound-transport callback of the
`WebSocketManager` (src/Frontend/src/lib/websocket.ts): either the
registered `onMessage` callback is invoked with the decoded snapshot and
the measured processing time, or the failure is logged to the console
(`console.error`), or the registered `onError` callback is invoked. -/
inductive WsCallbackEvent where
  | messageDelivered (data : OrderbookData) (processingTime : ℝ)
  | consoleErrorLogged
  | errorCallbackInvoked
  | closeCallbackInvoked

/-- The transport-handle state the manager owns: whether a socket is
currently open. The message handler never touches it. -/
structure WsState where
  socketOpen : Bool

/-- Embeds the `socket.onmessage` handler (websocket.ts lines 33–43).
`parse` abstracts `JSON.parse` followed by the cast to `OrderbookData`
(`none` = the parse threw); `elapsed` is the measured
`performance.now() − startTime`. On success the registered `onMessage`
callback fires; on failure the `catch` block only logs to the console —
it does not invoke `options.onError` — and the socket is left open. -/
def onmessageHandler (parse : String → Option OrderbookData) (elapsed : ℝ)
    (raw : String) (s : WsState) : WsCallbackEvent × WsState :=
  match parse raw with
  | some data => (.messageDelivered data elapsed, s)
  | none => (.consoleErrorLogged, s)

/-- Embeds the `socket.onerror` handler (websocket.ts lines 45–49),
which is the only message-path site invoking the registered `onError`
callback: it fires on transport errors, not on decode failures. -/
def onerrorHandler (s : WsState) : WsCallbackEvent × WsState :=
  (.errorCallbackInvoked, s)

/-- Counterexample to C9: a decode failure is only logged to the
console; the registered error callback is not invoked (the connection
state is untouched, so the stream does continue). -/
theorem c9_decode_failure_counterexample :
    onmessageHandler (fun _ => none) 1 "not json" ⟨true⟩ =
      (WsCallbackEvent.consoleErrorLogged, ⟨true⟩) ∧
    WsCallbackEvent.consoleErrorLogged ≠ WsCallbackEvent.errorCallbackInvoked :=
  ⟨rfl, fun h => WsCallbackEvent.noConfusion h⟩

/-- Claim C9 amended: a decode failure does not terminate the stream —
the handler leaves the connection state untouched and the adapter keeps
processing subsequent messages — but the failure is only logged to the
console, not reported through the registered error callback. -/
theorem c9_amended_decode_failure_nonfatal
    (parse : String → Option OrderbookData) (elapsed : ℝ) (raw : String)
    (s : WsState) (h : parse raw = none) :
    onmessageHandler parse elapsed raw s = (.consoleErrorLogged, s) := by
  unfold onmessageHandler
  rw [h]

/-- Witness for the amended C9 on a concrete failing decode. -/
theorem c9_amended_decode_failure_nonfatal_witness :
    ((fun _ : String => (none : Option OrderbookData)) "not json" = none) ∧
    onmessageHandler (fun _ => none) 2 "not json" ⟨true⟩ =
      (WsCallbackEvent.consoleErrorLogged, ⟨true⟩) :=
  ⟨rfl, c9_amended_decode_failure_nonfatal (fun _ => none) 2 "not json" ⟨true⟩ rfl⟩
